import Mathlib

set_option maxRecDepth 8000

/-!
Shallow embedding of the core of `src/App.py` (nvidia-smi-tk): the
polling/parsing/history/alerting pipeline.  Python functions are translated
into executable Lean definitions; Python floats are modelled as exact `Rat`
values, Python exceptions as `Except`/`Option`, and the mutable module-level
caches (`static_cache`, `last_alert_time`, `history_data`, `gpu_data_cache`)
as explicitly threaded state.
-/

deriving instance DecidableEq for Except

/-! ### String helpers (models of Python `str.split(",")` / `str.strip()` / `float()` / `int()`) -/

/-- Model of Python `s.split(",")` on the character list: splits at every
comma, keeping empty pieces; the result is never empty. -/
def splitCommaChars : List Char → List (List Char)
  | [] => [[]]
  | c :: cs =>
    let r := splitCommaChars cs
    if c = ',' then [] :: r
    else
      match r with
      | [] => [[c]]
      | h :: t => (c :: h) :: t

/-- Model of Python `s.split(",")`. -/
def splitComma (s : String) : List String :=
  (splitCommaChars s.toList).map (fun l => String.mk l)

/-- Model of Python `str.strip()` (restricted to the ASCII whitespace that
`Char.isWhitespace` recognises, which covers the tool's output). -/
def stripChars (l : List Char) : List Char :=
  ((l.dropWhile Char.isWhitespace).reverse.dropWhile Char.isWhitespace).reverse

/-- Model of Python `str.strip()` on `String`. -/
def pyStrip (s : String) : String :=
  String.mk (stripChars s.toList)

/-- Value of a nonempty run of decimal digits. -/
def digitsToNat (l : List Char) : Nat :=
  l.foldl (fun a c => a * 10 + (c.toNat - 48)) 0

/-! Python floats are modelled as exact rationals.  The kernel cannot unfold
`Rat.add`/`Rat.mul`/`Rat.div` (they normalise through `Nat.gcd` behind
`@[extern]`), so every arithmetic operation appearing inside an executable
definition is expressed through `Rat.divInt`/`mkRat` on numerators and
denominators, which do reduce; the lemmas `qAdd_eq` … below identify these
executable forms with the ordinary field operations. -/

/-- Executable `a + b` on `Rat`. -/
def qAdd (a b : Rat) : Rat :=
  Rat.divInt (a.num * b.den + b.num * a.den) (a.den * b.den)

/-- Executable `a - b` on `Rat`. -/
def qSub (a b : Rat) : Rat :=
  Rat.divInt (a.num * b.den - b.num * a.den) (a.den * b.den)

/-- Executable `a * b` on `Rat`. -/
def qMul (a b : Rat) : Rat :=
  Rat.divInt (a.num * b.num) (a.den * b.den)

/-- Executable `a / b` on `Rat` (Python `ZeroDivisionError` never arises at
the call sites below because each division is guarded; `a / 0 = 0` here). -/
def qDiv (a b : Rat) : Rat :=
  Rat.divInt (a.num * b.den) (a.den * b.num)

/-- Core of the Python `float()` builtin on an unsigned plain decimal literal:
`digits`, `digits.`, `digits.digits` or `.digits`.  (Exponents, `inf`, `nan`
and underscores are not produced by the tool's CSV fields and are omitted.)
Returns `none` where Python raises `ValueError`.  The value of
`ip.fp` is the exact rational `(ip·10^k + fp) / 10^k`. -/
def pyFloatCore (l : List Char) : Option Rat :=
  let ip := l.takeWhile Char.isDigit
  let rest := l.dropWhile Char.isDigit
  match rest with
  | [] => if ip.isEmpty then none else some (digitsToNat ip)
  | '.' :: fp =>
    if fp.all Char.isDigit ∧ ¬(ip.isEmpty ∧ fp.isEmpty) then
      some (mkRat (digitsToNat ip * 10 ^ fp.length + digitsToNat fp) (10 ^ fp.length))
    else none
  | _ => none

/-- Model of Python `float(s)` on plain decimal literals with an optional
sign; `none` models a raised `ValueError`. -/
def pyFloat (s : String) : Option Rat :=
  match s.toList with
  | '+' :: l => pyFloatCore l
  | '-' :: l => (pyFloatCore l).map Neg.neg
  | l => pyFloatCore l

/-- Model of Python `int()` applied to a float: truncation toward zero. -/
def pyInt (q : Rat) : Int :=
  if 0 ≤ q then q.floor else q.ceil

/-- `[x.strip() for x in output.split(",")]` from `parse_gpu_metrics`. -/
def partsOf (output : String) : List String :=
  (splitComma output).map pyStrip

/-! ### MetricParser: `parse_gpu_metrics` (src/App.py lines 463-478)

The Python function builds a dict field by field inside one `try`/`except
Exception: pass`.  A `ValueError` (non-numeric non-empty field) or an
`IndexError` (missing field among the first six) aborts the whole loop and
the partial dict is returned.  Each dict key is modelled as an `Option`
field: `none` means the key was never assigned before the abort.  The
`fan_speed` key holds a Python value that may itself be `None`, hence
`Option (Option Rat)`. -/

structure GpuMetrics where
  utilization : Option Rat
  mem_used : Option Rat
  mem_total : Option Rat
  temperature : Option Int
  power_draw : Option Rat
  power_limit : Option Rat
  fan_speed : Option (Option Rat)
  clock_gpu : Option Rat
  clock_mem : Option Rat

deriving Repr, DecidableEq

/-- The dict `metrics = {}` before any assignment (and after an abort at the
first field). -/
def emptyMetrics : GpuMetrics :=
  ⟨none, none, none, none, none, none, none, none, none⟩

/-- `float(parts[i]) if parts[i] else d` — `.error ()` models an
`IndexError` (index out of range) or a `ValueError` from `float`. -/
def fieldVal (ps : List String) (i : Nat) (d : Rat) : Except Unit Rat :=
  match ps[i]? with
  | none => .error ()
  | some s =>
    if s = "" then .ok d
    else
      match pyFloat s with
      | some v => .ok v
      | none => .error ()

/-- The fan-speed expression
`float(parts[6]) if len(parts) > 6 and parts[6] and parts[6] != "[N/A]" else None`:
the guard makes a missing/empty/`[N/A]` field `None` without touching
`float`; a remaining non-numeric field raises (`.error`). -/
def fanVal (ps : List String) : Except Unit (Option Rat) :=
  match ps[6]? with
  | none => .ok none
  | some s =>
    if s = "" ∨ s = "[N/A]" then .ok none
    else
      match pyFloat s with
      | some v => .ok (some v)
      | none => .error ()

/-- The clock expressions
`float(parts[i]) if len(parts) > i and parts[i] else 0` for `i ∈ {7, 8}`. -/
def clockVal (ps : List String) (i : Nat) : Except Unit Rat :=
  match ps[i]? with
  | none => .ok 0
  | some s =>
    if s = "" then .ok 0
    else
      match pyFloat s with
      | some v => .ok v
      | none => .error ()

/-- The body of `parse_gpu_metrics` on the split-and-stripped parts list:
assignments run in source order and the first exception aborts, returning
the record built so far. -/
def parseFields (ps : List String) : GpuMetrics :=
  match fieldVal ps 0 0 with
  | .error _ => emptyMetrics
  | .ok v0 =>
  match fieldVal ps 1 0 with
  | .error _ => { emptyMetrics with utilization := some v0 }
  | .ok v1 =>
  match fieldVal ps 2 1 with
  | .error _ => { emptyMetrics with utilization := some v0, mem_used := some v1 }
  | .ok v2 =>
  match fieldVal ps 3 0 with
  | .error _ =>
    { emptyMetrics with
      utilization := some v0
      mem_used := some v1
      mem_total := some v2 }
  | .ok v3 =>
  match fieldVal ps 4 0 with
  | .error _ =>
    { emptyMetrics with
      utilization := some v0
      mem_used := some v1
      mem_total := some v2
      temperature := some (pyInt v3) }
  | .ok v4 =>
  match fieldVal ps 5 1 with
  | .error _ =>
    { emptyMetrics with
      utilization := some v0
      mem_used := some v1
      mem_total := some v2
      temperature := some (pyInt v3)
      power_draw := some v4 }
  | .ok v5 =>
  let base : GpuMetrics :=
    { emptyMetrics with
      utilization := some v0
      mem_used := some v1
      mem_total := some v2
      temperature := some (pyInt v3)
      power_draw := some v4
      power_limit := some v5 }
  match fanVal ps with
  | .error _ => base
  | .ok fan =>
  let base6 := { base with fan_speed := some fan }
  match clockVal ps 7 with
  | .error _ => base6
  | .ok c7 =>
  let base7 := { base6 with clock_gpu := some c7 }
  match clockVal ps 8 with
  | .error _ => base7
  | .ok c8 => { base7 with clock_mem := some c8 }

/-- `parse_gpu_metrics(output)` (src/App.py line 463). -/
def parse_gpu_metrics (output : String) : GpuMetrics :=
  parseFields (partsOf output)

/-! ### `format_memory` (src/App.py lines 495-503)

Python's `f"{x:.1f}"` / `f"{x:.0f}"` round to the given number of decimals
with round-half-to-even and are modelled here on exact rationals (the
values reaching `format_memory` are exactly representable). -/

/-- Round half to even to the nearest integer. -/
def rhe (q : Rat) : Int :=
  let f := q.floor
  let r := qSub q f
  if r < mkRat 1 2 then f
  else if mkRat 1 2 < r then f + 1
  else if f % 2 = 0 then f else f + 1

/-- Decimal rendering of a nonnegative integer `n` of tenths as `i.f`. -/
def tenthsToString (n : Nat) : String :=
  toString (n / 10) ++ "." ++ toString (n % 10)

/-- Model of Python `f"{q:.1f}"`. -/
def fmt1 (q : Rat) : String :=
  let n := rhe (qMul q 10)
  (if n < 0 then "-" else "") ++ tenthsToString n.natAbs

/-- Model of Python `f"{q:.0f}"`. -/
def fmt0 (q : Rat) : String :=
  let n := rhe q
  (if n < 0 then "-" else "") ++ toString n.natAbs

/-- `format_memory(mem_used, mem_total)` (src/App.py line 495):
percent is `(mem_used / mem_total) * 100 if mem_total else 0`; display uses
GB (dividing by 1024, one decimal) when `mem_total >= 1024`, MB (no
decimals) otherwise. -/
def format_memory (mem_used mem_total : Rat) : String × Rat :=
  let percent := if mem_total = 0 then 0 else qMul (qDiv mem_used mem_total) 100
  let used_str :=
    if mem_total ≥ 1024 then fmt1 (qDiv mem_used 1024) ++ " GB"
    else fmt0 mem_used ++ " MB"
  let total_str :=
    if mem_total ≥ 1024 then fmt1 (qDiv mem_total 1024) ++ " GB"
    else fmt0 mem_total ++ " MB"
  (used_str ++ " / " ++ total_str ++ " (" ++ fmt1 percent ++ "%)", percent)

/-! ### HistoryStore: `history_data` (src/App.py lines 112-118) and the
append in `GPUMonitorApp.update_gui` (lines 1397-1404)

`history_data` is five `deque(maxlen=HISTORY_SIZE)` ring buffers; one value
is appended to each per successful GUI update. -/

/-- `HISTORY_SIZE = 300` (src/App.py line 38). -/
def HISTORY_SIZE : Nat := 300

/-- The five values appended during one `update_gui` cycle: the formatted
timestamp and the utilization / temperature / power-draw / memory-percent
numbers derived from the parsed metrics. -/
structure Sample where
  time : String
  utilization : Rat
  temperature : Int
  power : Rat
  memory : Rat

deriving Repr, DecidableEq

/-- The five parallel deques of `history_data`. -/
structure HistoryData where
  time : List String
  utilization : List Rat
  temperature : List Int
  power : List Rat
  memory : List Rat

deriving Repr, DecidableEq

/-- `history_data` at startup: all five deques empty. -/
def emptyHistory : HistoryData := ⟨[], [], [], [], []⟩

/-- `deque(maxlen=cap).append(x)`: pushes right, evicting the leftmost
element when the deque is full. -/
def dq_append (cap : Nat) (xs : List α) (x : α) : List α :=
  (xs ++ [x]).drop (xs.length + 1 - cap)

/-- The five `history_data[...].append(...)` calls of one `update_gui`
cycle (src/App.py lines 1397-1404). -/
def history_append (h : HistoryData) (s : Sample) : HistoryData :=
  ⟨dq_append HISTORY_SIZE h.time s.time,
   dq_append HISTORY_SIZE h.utilization s.utilization,
   dq_append HISTORY_SIZE h.temperature s.temperature,
   dq_append HISTORY_SIZE h.power s.power,
   dq_append HISTORY_SIZE h.memory s.memory⟩

/-- The history after a whole sequence of appends, starting empty. -/
def history_of (samples : List Sample) : HistoryData :=
  samples.foldl history_append emptyHistory

/-- The memory-percent value appended by `update_gui`:
`(mem_used / mem_total) * 100 if mem_total else 0` (src/App.py line 1403). -/
def memPercent (mem_used mem_total : Rat) : Rat :=
  if mem_total = 0 then 0 else qMul (qDiv mem_used mem_total) 100

/-- The sample `update_gui` appends for timestamp string `ts` and parsed
metrics `m` (missing dict keys fall back through `.get(key, default)`). -/
def sampleOf (ts : String) (m : GpuMetrics) : Sample :=
  ⟨ts, m.utilization.getD 0, m.temperature.getD 0, m.power_draw.getD 0,
   memPercent (m.mem_used.getD 0) (m.mem_total.getD 1)⟩

/-! ### AlertEngine: `check_alerts` (src/App.py lines 360-380)

`last_alert_time` is a dict from alert kind to the wall-clock time of the
last firing; a missing key reads as `0` through `.get(kind, 0)`.  The dict
is threaded here as `AlertState`; `time.time()` is the explicit `now`
argument. -/

/-- The alert-relevant configuration entries (`config.get(...)` defaults are
already merged by `load_config`). -/
structure AlertConfig where
  alert_enabled : Bool
  alert_temp : Int
  alert_util : Rat

deriving Repr, DecidableEq

/-- `last_alert_time`: per-kind last-fired wall-clock times; `none` means
the key is absent (never fired). -/
structure AlertState where
  temp : Option Rat
  util : Option Rat

deriving Repr, DecidableEq

/-- A `show_notification(title, message)` call. -/
structure AlertEvent where
  title : String
  message : String

deriving Repr, DecidableEq

/-- The temperature notification of `check_alerts`. -/
def tempAlertEvent (temp alert_temp : Int) : AlertEvent :=
  ⟨"Temperature Alert",
   "GPU temperature is " ++ toString temp ++ "°C (threshold: " ++ toString alert_temp ++ "°C)"⟩

/-- The utilization notification of `check_alerts`.  (The interpolated
numbers render through `Rat`'s `toString` rather than Python's float
`repr`; the claims under verification concern which alerts fire, not the
notification text.) -/
def utilAlertEvent (util alert_util : Rat) : AlertEvent :=
  ⟨"Utilization Alert",
   "GPU utilization is " ++ toString util ++ "% (threshold: " ++ toString alert_util ++ "%)"⟩

/-- `check_alerts(metrics, config)` at wall-clock time `now` with
`last_alert_time = st`: returns the emitted notifications in order and the
updated `last_alert_time`. -/
def check_alerts (metrics : GpuMetrics) (config : AlertConfig) (now : Rat)
    (st : AlertState) : List AlertEvent × AlertState :=
  if ¬config.alert_enabled then ([], st)
  else
    let temp := metrics.temperature.getD 0
    let util := metrics.utilization.getD 0
    -- `if temp >= alert_temp: if current_time - last_alert_time.get('temp', 0) > 300:`
    let (evsT, stT) :=
      if config.alert_temp ≤ temp ∧ (300 : Rat) < qSub now (st.temp.getD 0) then
        ([tempAlertEvent temp config.alert_temp], { st with temp := some now })
      else ([], st)
    -- `if util >= alert_util: if current_time - last_alert_time.get('util', 0) > 300:`
    let (evsU, stU) :=
      if config.alert_util ≤ util ∧ (300 : Rat) < qSub now (stT.util.getD 0) then
        ([utilAlertEvent util config.alert_util], { stT with util := some now })
      else ([], stT)
    (evsT ++ evsU, stU)

/-! ### `run_with_retry` (src/App.py lines 152-159) and
`get_nvidia_smi_output` (lines 445-461)

`run_with_retry(func, retries=3, delay=1)` runs `for i in range(retries)`:
each iteration calls `func()`, returning its result on success; on an
exception it re-raises if `i == retries - 1` and otherwise sleeps `delay`
seconds and tries again.  The operation is modelled as a function from the
attempt index to that attempt's outcome; the model also counts the attempts
made and the total seconds slept so the retry policy itself is provable. -/

/-- One outcome record of the retry loop: the final result (`none` only
when `retries = 0`, where the Python loop body never runs and the function
falls through returning `None`), the number of calls made to the operation,
and the total seconds slept. -/
structure RetryTrace (ε α : Type) where
  result : Option (Except ε α)
  attempts : Nat
  slept : Nat

deriving Repr

/-- The retry loop from attempt index `i` with `rem` iterations remaining. -/
def retryFrom (f : Nat → Except ε α) (delay : Nat) : Nat → Nat → RetryTrace ε α
  | _, 0 => ⟨none, 0, 0⟩
  | i, rem + 1 =>
    match f i with
    | .ok a => ⟨some (.ok a), 1, 0⟩
    | .error e =>
      if rem = 0 then ⟨some (.error e), 1, 0⟩
      else
        let t := retryFrom f delay (i + 1) rem
        ⟨t.result, t.attempts + 1, t.slept + delay⟩

/-- `run_with_retry(func, retries, delay)` (src/App.py line 152). -/
def run_with_retry (f : Nat → Except ε α) (retries delay : Nat) : RetryTrace ε α :=
  retryFrom f delay 0 retries

/-- The exceptions distinguished by `get_nvidia_smi_output`'s handlers. -/
inductive ToolError
  | fileNotFound
  | other (msg : String)

deriving Repr, DecidableEq

/-- `get_nvidia_smi_output()` (src/App.py line 445): the `fetch` closure
(the two `subprocess.check_output` calls, stripped) is wrapped in
`run_with_retry` with the default `retries=3, delay=1`; a final
`FileNotFoundError` yields the persistent missing-binary message, any other
final exception is stringified as `"Error: {e}"`; parsing happens elsewhere
and is never retried.  The `fetch` argument gives each attempt's outcome. -/
def get_nvidia_smi_output (fetch : Nat → Except ToolError (String × String)) :
    String × String :=
  match (run_with_retry fetch 3 1).result with
  | some (.ok r) => r
  | some (.error .fileNotFound) =>
    ("Error: nvidia-smi not found. Ensure drivers are installed.", "")
  | some (.error (.other msg)) => ("Error: " ++ msg, "")
  | none => ("", "")  -- unreachable for retries = 3, see `retryFrom_result_isSome`

/-! ### PowerLimitController: `get_power_limits` (src/App.py lines 398-424)
and `set_power_limit` (lines 426-443)

`static_cache['power_limits']` is the cache entry; it is threaded
explicitly.  The fetch closure scans `nvidia-smi -q -d POWER` output
line-by-line with the three anchored regexes
`^Power Limit\s*:\s*([\d\.]+) W`, `^Min Power Limit\s*:\s*([\d\.]+) W`,
`^Max Power Limit\s*:\s*([\d\.]+) W` (an `if`/`elif` chain). -/

/-- The `(cur, min_, max_)` triple; each component is `None` when no line
matched. -/
def PTriple := Option Rat × Option Rat × Option Rat

deriving instance Repr, DecidableEq for PTriple

/-- `re.match(label + r"\s*:\s*([\d\.]+) W", line)`: anchored prefix match;
returns the captured `[\d.]+` run.  The trailing rest of the line is
unconstrained, as with `re.match`. -/
def matchPowerLabel (label : List Char) (line : List Char) : Option (List Char) :=
  if line.take label.length = label then
    match (line.drop label.length).dropWhile Char.isWhitespace with
    | ':' :: r2 =>
      let r3 := r2.dropWhile Char.isWhitespace
      let num := r3.takeWhile (fun c => c.isDigit || c = '.')
      let r4 := r3.dropWhile (fun c => c.isDigit || c = '.')
      if ¬num.isEmpty ∧ r4.take 2 = [' ', 'W'] then some num else none
    | _ => none
  else none

/-- Model of Python `str.splitlines()` restricted to `'\n'` separators (the
tool's output uses newlines): no entry for a trailing newline, `[]` for the
empty string. -/
def splitNlChars : List Char → List (List Char)
  | [] => []
  | c :: cs =>
    if c = '\n' then [] :: splitNlChars cs
    else
      match splitNlChars cs with
      | [] => [[c]]
      | h :: t => (c :: h) :: t

/-- `str.splitlines()` on `String`. -/
def splitNl (s : String) : List (List Char) :=
  splitNlChars s.toList

/-- The scanning loop of the `fetch` closure in `get_power_limits`:
`cur = min_ = max_ = None`, then one `if`/`elif` chain per stripped line.
`float()` on a matched group such as `"1.2.3"` raises `ValueError`,
modelled as `.error ()` (the exception escapes `fetch`). -/
def scanPowerLines : List (List Char) → PTriple → Except Unit PTriple
  | [], acc => .ok acc
  | l :: ls, (cur, min_, max_) =>
    let line := stripChars l
    match matchPowerLabel "Power Limit".toList line with
    | some num =>
      match pyFloat (String.mk num) with
      | some v => scanPowerLines ls (some v, min_, max_)
      | none => .error ()
    | none =>
    match matchPowerLabel "Min Power Limit".toList line with
    | some num =>
      match pyFloat (String.mk num) with
      | some v => scanPowerLines ls (cur, some v, max_)
      | none => .error ()
    | none =>
    match matchPowerLabel "Max Power Limit".toList line with
    | some num =>
      match pyFloat (String.mk num) with
      | some v => scanPowerLines ls (cur, min_, some v)
      | none => .error ()
    | none => scanPowerLines ls (cur, min_, max_)

/-- The whole `fetch` closure of `get_power_limits` applied to the raw text
of one `nvidia-smi -q -d POWER` invocation. -/
def scanPowerText (text : String) : Except Unit PTriple :=
  scanPowerLines (splitNl text) (none, none, none)

/-- `get_power_limits()` (src/App.py line 398): returns the cached triple
when `'power_limits' in static_cache`; otherwise runs the fetch (each
attempt's raw text or raised exception given by `raw`) under
`run_with_retry`, caching the triple on success and returning
`(None, None, None)` uncached on a final exception.  Result: the returned
triple, the new cache entry, and whether the external tool was invoked. -/
def get_power_limits (raw : Nat → Except Unit String) (cache : Option PTriple) :
    PTriple × Option PTriple × Bool :=
  match cache with
  | some t => (t, cache, false)
  | none =>
    match (run_with_retry (fun i => (raw i).bind scanPowerText) 3 1).result with
    | some (.ok t) => (t, some t, true)
    | _ => ((none, none, none), none, true)

/-- Outcome of the external `nvidia-smi -pl <watts>` mutation command. -/
inductive CmdOutcome
  | ok (out : String)
  | calledProcessError (out : String)
  | otherError (msg : String)

deriving Repr, DecidableEq

/-- `set_power_limit(new_limit)` (src/App.py line 426): on success pops
`static_cache['power_limits']` and returns `(True, output)`; a
`CalledProcessError` returns `(False, e.output)` and any other exception
`(False, str(e))`, leaving the cache untouched. -/
def set_power_limit (outcome : CmdOutcome) (cache : Option PTriple) :
    (Bool × String) × Option PTriple :=
  match outcome with
  | .ok out => ((true, out), none)
  | .calledProcessError out => ((false, out), cache)
  | .otherError msg => ((false, msg), cache)

/-- `min_ is not None and max_ is not None and (val < min_ or val > max_)`
(src/App.py line 620). -/
def out_of_bounds (min_ max_ : Option Rat) (val : Rat) : Bool :=
  match min_, max_ with
  | some mn, some mx => decide (val < mn) || decide (mx < val)
  | _, _ => false

/-- Result of one `apply_limit` click in `open_power_limit_window`
(src/App.py lines 617-633). -/
inductive ApplyOutcome
  | invalidRange (minW maxW : Rat)
  | applied (ok : Bool) (out : String)

deriving Repr, DecidableEq

/-- `apply_limit` with an already-parsed numeric entry `val`, the bounds
`min_`, `max_` captured from `get_power_limits`, and the external command's
outcome were it invoked.  Returns the outcome, the new
`static_cache['power_limits']` entry, and the watt argument passed to the
external command (`str(int(val))`), `none` when it was not invoked. -/
def apply_limit (min_ max_ : Option Rat) (val : Rat) (outcome : CmdOutcome)
    (cache : Option PTriple) : ApplyOutcome × Option PTriple × Option Int :=
  if out_of_bounds min_ max_ val then
    (.invalidRange (min_.getD 0) (max_.getD 0), cache, none)
  else
    let ((ok, out), cache') := set_power_limit outcome cache
    (.applied ok out, cache', some (pyInt val))

/-! ### Export: `export_to_csv` (src/App.py lines 308-324) and
`export_to_json` (lines 326-345)

Both iterate `for i in range(len(history_data['time']))` and index all five
deques at `i`; an `IndexError` (possible only if the five lengths ever
differed) is caught and the function returns `False`, modelled as `none`.
The documents are modelled structurally: the CSV writer and `json.dump`
receive exactly these rows/records, whose cells are the Python values of
the history entries. -/

/-- The header row written by `export_to_csv`. -/
def csvHeader : List String :=
  ["Timestamp", "Utilization (%)", "Temperature (C)", "Power (W)", "Memory (%)"]

/-- One CSV data row / JSON data record: the five history entries at one
index. -/
structure ExportRow where
  timestamp : String
  utilization : Rat
  temperature : Int
  power : Rat
  memory : Rat

deriving Repr, DecidableEq

/-- The five indexed reads
`history_data['time'][i], ..., history_data['memory'][i]`. -/
def rowAt (h : HistoryData) (i : Nat) : Option ExportRow := do
  let t ← h.time[i]?
  let u ← h.utilization[i]?
  let c ← h.temperature[i]?
  let p ← h.power[i]?
  let m ← h.memory[i]?
  pure ⟨t, u, c, p, m⟩

/-- The CSV document: header plus one row per retained sample. -/
structure CsvDoc where
  header : List String
  rows : List ExportRow

deriving Repr, DecidableEq

/-- `export_to_csv` (src/App.py line 308): `none` models `return False`. -/
def export_to_csv (h : HistoryData) : Option CsvDoc :=
  ((List.range h.time.length).mapM (rowAt h)).map (fun rs => ⟨csvHeader, rs⟩)

/-- The JSON document built by `export_to_json`. -/
structure JsonDoc where
  export_time : String
  gpu_name : String
  data : List ExportRow

deriving Repr, DecidableEq

/-- `export_to_json` (src/App.py line 326): `export_time` is
`datetime.now().isoformat()` (passed in as `now_iso`), `gpu_name` is
`static_cache.get('gpu_name', 'Unknown')`. -/
def export_to_json (now_iso : String) (gpu_name_cache : Option String)
    (h : HistoryData) : Option JsonDoc :=
  ((List.range h.time.length).mapM (rowAt h)).map
    (fun rs => ⟨now_iso, gpu_name_cache.getD "Unknown", rs⟩)

/-- Reading the tuples back from an exported CSV document. -/
def readBackCsv (d : CsvDoc) : List ExportRow := d.rows

/-- Reading the tuples back from an exported JSON document. -/
def readBackJson (d : JsonDoc) : List ExportRow := d.data

/-! ### The shared mailbox `gpu_data_cache` (src/App.py lines 1352-1365
writer, 1384-1386 reader)

`background_worker` publishes one poll cycle with three separate dict
assignments, in source order `gpu_output`, `proc_output`, `timestamp`; the
GUI tick reads the three keys back.  Each single dict-key store is atomic
(one bytecode-level operation under the interpreter lock), so the
interleaving unit is one key write. -/

/-- The data of one poll cycle to be published. -/
structure CycleData where
  gpu_output : String
  proc_output : String
  timestamp : Nat

deriving Repr, DecidableEq

/-- The mailbox: the current values of the three keys of `gpu_data_cache`. -/
structure Mailbox where
  gpu_output : String
  proc_output : String
  timestamp : Nat

deriving Repr, DecidableEq

/-- One atomic store to a single key of `gpu_data_cache`. -/
inductive WriteStep
  | wGpu
  | wProc
  | wTs

deriving Repr, DecidableEq

/-- Apply one key store of cycle `c` to the mailbox. -/
def applyW (c : CycleData) : WriteStep → Mailbox → Mailbox
  | .wGpu, m => { m with gpu_output := c.gpu_output }
  | .wProc, m => { m with proc_output := c.proc_output }
  | .wTs, m => { m with timestamp := c.timestamp }

/-- The publish sequence of `background_worker`, in source order
(src/App.py lines 1356-1358). -/
def publishSteps : List WriteStep := [.wGpu, .wProc, .wTs]

/-- A completed publish of cycle `c` over mailbox `m`. -/
def publishAll (c : CycleData) (m : Mailbox) : Mailbox :=
  publishSteps.foldl (fun m s => applyW c s m) m

/-- The mailbox after a full publish of cycle `a` followed by the first `k`
key stores of cycle `b`: the state a concurrent reader can observe when its
read interleaves after `k` writer steps of the second cycle. -/
def mailboxAfter (a b : CycleData) (m0 : Mailbox) (k : Nat) : Mailbox :=
  (publishSteps.take k).foldl (fun m s => applyW b s m) (publishAll a m0)

/-- The GB branch display of `format_memory` (taken when
`mem_total >= 1024`), spelled exactly as the source builds it. -/
def gbDisplay (u t : Rat) : String :=
  (fmt1 (qDiv u 1024) ++ " GB") ++ " / " ++ (fmt1 (qDiv t 1024) ++ " GB") ++ " (" ++
    fmt1 (memPercent u t) ++ "%)"

/-- The MB branch display of `format_memory` (taken when
`mem_total < 1024`), spelled exactly as the source builds it. -/
def mbDisplay (u t : Rat) : String :=
  (fmt0 u ++ " MB") ++ " / " ++ (fmt0 t ++ " MB") ++ " (" ++
    fmt1 (memPercent u t) ++ "%)"

/-- The value a good (empty or numeric) field `i` resolves to, with default
`d`. -/
def fieldOut (ps : List String) (i : Nat) (d : Rat) : Rat :=
  match ps[i]? with
  | none => d
  | some s => if s = "" then d else (pyFloat s).getD 0

/-- The fan value for a good fan field: `None` on missing/empty/`[N/A]`. -/
def fanOut (ps : List String) : Option Rat :=
  match ps[6]? with
  | none => none
  | some s => if s = "" ∨ s = "[N/A]" then none else pyFloat s

/-- The clock value for a good clock field `i ∈ {7, 8}`: `0` on
missing/empty. -/
def clockOut (ps : List String) (i : Nat) : Rat :=
  match ps[i]? with
  | none => 0
  | some s => if s = "" then 0 else (pyFloat s).getD 0

/-- 301 distinct samples, one more than the capacity. -/
def witnessSamples : List Sample :=
  (List.range 301).map (fun (i : Nat) => Sample.mk "t" (i : Rat) (i : Int) (i : Rat) (i : Rat))

/-- A parsed snapshot with temperature 85 (other keys irrelevant). -/
def tempMetrics85 : GpuMetrics := { emptyMetrics with temperature := some 85 }

/-- Alerts enabled, `alert_temp = 80`, `alert_util = 90`. -/
def alertCfg80 : AlertConfig := ⟨true, 80, 90⟩

/-- An operation failing on its first attempt and succeeding on its second. -/
def flakyFetch : Nat → Except ToolError (String × String) :=
  fun i => if i = 0 then .error (.other "boom") else .ok ("85, 0, 1, 40, 10, 100", "")

/-- The row the exports should produce at index `i`: the five history
entries of the same poll. -/
def historyRows (h : HistoryData) : List ExportRow :=
  (List.range h.time.length).map (fun i =>
    ⟨h.time.getD i "", h.utilization.getD i 0, h.temperature.getD i 0,
     h.power.getD i 0, h.memory.getD i 0⟩)

/-- A concrete 3-sample history. -/
def threeSamples : List Sample :=
  [⟨"10:00:01", 10, 40, 50, 25⟩, ⟨"10:00:03", 20, 45, 60, 30⟩, ⟨"10:00:05", 30, 50, 70, 35⟩]

/-- A `nvidia-smi -q -d POWER` text with the three labeled lines. -/
def powerText : String :=
  "GPU 00000000:01:00.0\n    Power Limit                  : 200.00 W\n    Min Power Limit              : 100.00 W\n    Max Power Limit              : 300.00 W\n"

/-! # Theorems

The `qAdd_eq` family identifies the executable arithmetic with the field
operations; the remaining theorems settle the claims C1-C10, grouped by
claim. -/

theorem qAdd_eq (a b : Rat) : qAdd a b = a + b := by
  have ha : (a.den : Int) ≠ 0 := Int.natCast_ne_zero.mpr a.den_nz
  have hb : (b.den : Int) ≠ 0 := Int.natCast_ne_zero.mpr b.den_nz
  rw [qAdd]
  conv_rhs => rw [← Rat.num_divInt_den a, ← Rat.num_divInt_den b]
  rw [Rat.divInt_add_divInt _ _ ha hb]

theorem qSub_eq (a b : Rat) : qSub a b = a - b := by
  have ha : (a.den : Int) ≠ 0 := Int.natCast_ne_zero.mpr a.den_nz
  have hb : (b.den : Int) ≠ 0 := Int.natCast_ne_zero.mpr b.den_nz
  rw [qSub]
  conv_rhs => rw [← Rat.num_divInt_den a, ← Rat.num_divInt_den b]
  rw [Rat.divInt_sub_divInt _ _ ha hb]

theorem qMul_eq (a b : Rat) : qMul a b = a * b := by
  have ha : (a.den : Int) ≠ 0 := Int.natCast_ne_zero.mpr a.den_nz
  have hb : (b.den : Int) ≠ 0 := Int.natCast_ne_zero.mpr b.den_nz
  rw [qMul]
  conv_rhs => rw [← Rat.num_divInt_den a, ← Rat.num_divInt_den b]
  rw [Rat.divInt_mul_divInt _ _ ha hb]

theorem qDiv_eq (a b : Rat) : qDiv a b = a / b := (Rat.div_def' a b).symm

/-! ## Claim C5: `format_memory` -/

/-- C5 (counterexample): the claim states
`format_memory(512, 1024) = ("512 MB / 1024 MB (50.0%)", 50.0)`, but the
code's unit test `mem_total >= 1024` already selects the GB branch at
exactly 1024 MB, producing `("0.5 GB / 1.0 GB (50.0%)", 50.0)`. -/
theorem format_memory_claim_false_at_1024 :
    format_memory 512 1024 ≠ ("512 MB / 1024 MB (50.0%)", 50) ∧
    format_memory 512 1024 = ("0.5 GB / 1.0 GB (50.0%)", 50) := by
  decide

/-- C5 (amended): `format_memory` computes
`percent = used/total*100` guarded against `total = 0`, and selects the GB
display (values divided by 1024, one decimal) exactly when
`total ≥ 1024` MB, the MB display (no decimals) when `total < 1024`;
`format_memory(2048, 8192) = ("2.0 GB / 8.0 GB (25.0%)", 25.0)` and
`format_memory(512, 1024) = ("0.5 GB / 1.0 GB (50.0%)", 50.0)`. -/
theorem format_memory_amended :
    (∀ u t : Rat, (format_memory u t).2 = if t = 0 then 0 else u / t * 100) ∧
    (∀ u t : Rat, 1024 ≤ t → (format_memory u t).1 = gbDisplay u t) ∧
    (∀ u t : Rat, t < 1024 → (format_memory u t).1 = mbDisplay u t) ∧
    format_memory 2048 8192 = ("2.0 GB / 8.0 GB (25.0%)", 25) ∧
    format_memory 512 1024 = ("0.5 GB / 1.0 GB (50.0%)", 50) := by
  refine ⟨?_, ?_, ?_, by decide, by decide⟩
  · intro u t
    simp only [format_memory]
    split
    · rfl
    · rw [qMul_eq, qDiv_eq]
  · intro u t ht
    have h : t ≥ 1024 := ht
    simp only [format_memory, gbDisplay, memPercent, if_pos h]
  · intro u t ht
    have h : ¬t ≥ 1024 := not_le.mpr ht
    simp only [format_memory, mbDisplay, memPercent, if_neg h]

/-- C5 (witness): the amended display rule applied at the boundary input
`(512, 1024)`. -/
theorem format_memory_amended_witness :
    (1024 : Rat) ≤ 1024 ∧ (format_memory 512 1024).1 = gbDisplay 512 1024 :=
  ⟨by decide, format_memory_amended.2.1 512 1024 (by decide)⟩

/-! ## Claim C4: happy-path round trip of `parse_gpu_metrics` -/

theorem fieldVal_eq_ok {ps : List String} {i : Nat} {s : String} {v : Rat}
    (hget : ps[i]? = some s) (hne : s ≠ "") (hv : pyFloat s = some v) (d : Rat) :
    fieldVal ps i d = .ok v := by
  simp [fieldVal, hget, hne, hv]

theorem fieldVal_eq_dflt {ps : List String} {i : Nat}
    (hget : ps[i]? = some "") (d : Rat) : fieldVal ps i d = .ok d := by
  simp [fieldVal, hget]

/-- For a rational with denominator 1, Python `int(float(x))` is its
numerator. -/
theorem pyInt_eq_num {v : Rat} (h : v.den = 1) : pyInt v = v.num := by
  rw [pyInt]
  split <;> simp [Rat.floor, Rat.ceil, h]

/-- C4: for a well-formed 9-field line — every stripped field a nonempty
plain numeral, the temperature field integral as the tool emits it —
`parse_gpu_metrics` returns all nine fields as numbers equal to the input
values exactly (the temperature through `int(float(·))`, which is the
identity on an integral value). -/
theorem parse_gpu_metrics_round_trip
    (output : String) (s0 s1 s2 s3 s4 s5 s6 s7 s8 : String)
    (v0 v1 v2 v3 v4 v5 v6 v7 v8 : Rat)
    (hps : partsOf output = [s0, s1, s2, s3, s4, s5, s6, s7, s8])
    (h0 : pyFloat s0 = some v0) (hn0 : s0 ≠ "")
    (h1 : pyFloat s1 = some v1) (hn1 : s1 ≠ "")
    (h2 : pyFloat s2 = some v2) (hn2 : s2 ≠ "")
    (h3 : pyFloat s3 = some v3) (hn3 : s3 ≠ "")
    (h4 : pyFloat s4 = some v4) (hn4 : s4 ≠ "")
    (h5 : pyFloat s5 = some v5) (hn5 : s5 ≠ "")
    (h6 : pyFloat s6 = some v6) (hn6 : s6 ≠ "")
    (h7 : pyFloat s7 = some v7) (hn7 : s7 ≠ "")
    (h8 : pyFloat s8 = some v8) (hn8 : s8 ≠ "")
    (hint : v3.den = 1) :
    parse_gpu_metrics output =
      ⟨some v0, some v1, some v2, some v3.num, some v4, some v5,
       some (some v6), some v7, some v8⟩ := by
  have hna : s6 ≠ "[N/A]" := by
    intro e
    rw [e] at h6
    have : pyFloat "[N/A]" = none := by decide
    rw [this] at h6
    exact Option.noConfusion h6
  rw [parse_gpu_metrics, hps, parseFields,
    fieldVal_eq_ok (show [s0, s1, s2, s3, s4, s5, s6, s7, s8][(0:Nat)]? = some s0 from rfl) hn0 h0,
    fieldVal_eq_ok (show [s0, s1, s2, s3, s4, s5, s6, s7, s8][(1:Nat)]? = some s1 from rfl) hn1 h1,
    fieldVal_eq_ok (show [s0, s1, s2, s3, s4, s5, s6, s7, s8][(2:Nat)]? = some s2 from rfl) hn2 h2,
    fieldVal_eq_ok (show [s0, s1, s2, s3, s4, s5, s6, s7, s8][(3:Nat)]? = some s3 from rfl) hn3 h3,
    fieldVal_eq_ok (show [s0, s1, s2, s3, s4, s5, s6, s7, s8][(4:Nat)]? = some s4 from rfl) hn4 h4,
    fieldVal_eq_ok (show [s0, s1, s2, s3, s4, s5, s6, s7, s8][(5:Nat)]? = some s5 from rfl) hn5 h5]
  rw [show fanVal [s0, s1, s2, s3, s4, s5, s6, s7, s8] = .ok (some v6) by
      simp [fanVal, hn6, hna, h6],
    show clockVal [s0, s1, s2, s3, s4, s5, s6, s7, s8] 7 = .ok v7 by
      simp [clockVal, hn7, h7],
    show clockVal [s0, s1, s2, s3, s4, s5, s6, s7, s8] 8 = .ok v8 by
      simp [clockVal, hn8, h8]]
  simp only [pyInt_eq_num hint]

/-- C4 (witness): a concrete well-formed 9-field line round-trips. -/
theorem parse_gpu_metrics_round_trip_witness :
    partsOf "85, 2048, 8192, 70, 150.5, 200, 55, 1500, 7000" =
      ["85", "2048", "8192", "70", "150.5", "200", "55", "1500", "7000"] ∧
    parse_gpu_metrics "85, 2048, 8192, 70, 150.5, 200, 55, 1500, 7000" =
      ⟨some 85, some 2048, some 8192, some ((70 : Rat).num), some (mkRat 301 2),
       some 200, some (some 55), some 1500, some 7000⟩ :=
  ⟨by decide,
   parse_gpu_metrics_round_trip _ "85" "2048" "8192" "70" "150.5" "200" "55" "1500" "7000"
     85 2048 8192 70 (mkRat 301 2) 200 55 1500 7000 (by decide)
     (by decide) (by decide) (by decide) (by decide) (by decide) (by decide)
     (by decide) (by decide) (by decide) (by decide) (by decide) (by decide)
     (by decide) (by decide) (by decide) (by decide) (by decide) (by decide)
     (by decide)⟩

/-! ## Claim C3: defensive parsing -/

theorem fieldVal_eq_of_good {ps : List String} {i : Nat} {s : String}
    (hget : ps[i]? = some s) (hgood : s = "" ∨ (pyFloat s).isSome) (d : Rat) :
    fieldVal ps i d = .ok (fieldOut ps i d) := by
  rcases hgood with rfl | hv
  · rw [fieldVal, fieldOut, hget]
    simp
  · obtain ⟨v, hv⟩ := Option.isSome_iff_exists.mp hv
    have hne : s ≠ "" := by
      rintro rfl
      rw [show pyFloat "" = none by decide] at hv
      exact Option.noConfusion hv
    rw [fieldVal, fieldOut, hget]
    simp [hne, hv]

theorem fanVal_eq_of_good {ps : List String}
    (hfan : ∀ s, ps[6]? = some s → s = "" ∨ s = "[N/A]" ∨ (pyFloat s).isSome) :
    fanVal ps = .ok (fanOut ps) := by
  rw [fanVal, fanOut]
  cases h6 : ps[6]? with
  | none => rfl
  | some s =>
    rcases hfan s h6 with rfl | rfl | hv
    · simp
    · simp
    · obtain ⟨v, hv⟩ := Option.isSome_iff_exists.mp hv
      have hne : s ≠ "" := by
        rintro rfl
        rw [show pyFloat "" = none by decide] at hv
        exact Option.noConfusion hv
      have hna : s ≠ "[N/A]" := by
        rintro rfl
        rw [show pyFloat "[N/A]" = none by decide] at hv
        exact Option.noConfusion hv
      simp [hne, hna, hv]

theorem clockVal_eq_of_good {ps : List String} {i : Nat}
    (hclk : ∀ s, ps[i]? = some s → s = "" ∨ (pyFloat s).isSome) :
    clockVal ps i = .ok (clockOut ps i) := by
  rw [clockVal, clockOut]
  cases hi : ps[i]? with
  | none => rfl
  | some s =>
    rcases hclk s hi with rfl | hv
    · simp
    · obtain ⟨v, hv⟩ := Option.isSome_iff_exists.mp hv
      have hne : s ≠ "" := by
        rintro rfl
        rw [show pyFloat "" = none by decide] at hv
        exact Option.noConfusion hv
      simp [hne, hv]

/-- The full characterization of `parseFields` on defensive-good parts:
at least six fields, every non-fan field empty or numeric, the fan field
(when present) empty, `[N/A]`, or numeric.  All nine keys are then
assigned, with the source's per-field defaults. -/
theorem parseFields_good (ps : List String) (hlen : 6 ≤ ps.length)
    (hgood : ∀ i, (hi : i < ps.length) → i ≠ 6 → ps[i] = "" ∨ (pyFloat ps[i]).isSome)
    (hfan : ∀ s, ps[6]? = some s → s = "" ∨ s = "[N/A]" ∨ (pyFloat s).isSome) :
    parseFields ps =
      ⟨some (fieldOut ps 0 0), some (fieldOut ps 1 0), some (fieldOut ps 2 1),
       some (pyInt (fieldOut ps 3 0)), some (fieldOut ps 4 0), some (fieldOut ps 5 1),
       some (fanOut ps), some (clockOut ps 7), some (clockOut ps 8)⟩ := by
  have b0 : (0 : Nat) < ps.length := by omega
  have b1 : (1 : Nat) < ps.length := by omega
  have b2 : (2 : Nat) < ps.length := by omega
  have b3 : (3 : Nat) < ps.length := by omega
  have b4 : (4 : Nat) < ps.length := by omega
  have b5 : (5 : Nat) < ps.length := by omega
  have hclk : ∀ j, j ≠ 6 → ∀ s, ps[j]? = some s → s = "" ∨ (pyFloat s).isSome := by
    intro j hj s hs
    have hb : j < ps.length := (List.getElem?_eq_some.mp hs).1
    have := hgood j hb hj
    rw [List.getElem?_eq_getElem hb] at hs
    cases hs
    exact this
  rw [parseFields,
    fieldVal_eq_of_good (List.getElem?_eq_getElem b0) (hgood 0 b0 (by omega)) 0,
    fieldVal_eq_of_good (List.getElem?_eq_getElem b1) (hgood 1 b1 (by omega)) 0,
    fieldVal_eq_of_good (List.getElem?_eq_getElem b2) (hgood 2 b2 (by omega)) 1,
    fieldVal_eq_of_good (List.getElem?_eq_getElem b3) (hgood 3 b3 (by omega)) 0,
    fieldVal_eq_of_good (List.getElem?_eq_getElem b4) (hgood 4 b4 (by omega)) 0,
    fieldVal_eq_of_good (List.getElem?_eq_getElem b5) (hgood 5 b5 (by omega)) 1,
    fanVal_eq_of_good hfan,
    clockVal_eq_of_good (hclk 7 (by omega)),
    clockVal_eq_of_good (hclk 8 (by omega))]

/-- C3 (counterexample): the claim says the literal not-available marker in
any position still leaves every non-fan field resolved to a number (0 for
utilization).  But `float("[N/A]")` raises `ValueError` inside the single
`try`, aborting the whole loop at the first field: the returned dict is
empty — no key resolves at all, even though the remaining eight fields are
numeric. -/
theorem parse_gpu_metrics_claim_false_at_NA_first :
    parse_gpu_metrics "[N/A],10,100,50,20,200,30,1000,5000" = emptyMetrics ∧
    (parse_gpu_metrics "[N/A],10,100,50,20,200,30,1000,5000").utilization = none := by
  decide

/-- C3 (amended): `parse_gpu_metrics` never raises (the single
`try`/`except` always yields a dict), and the per-field fallbacks — 0 for
counters, 1 for totals/limits, `None` for fan on missing/empty/`[N/A]`, 0
for missing clocks — hold whenever each present field is individually good
(empty or numeric; the fan field may also be `[N/A]`) and at least six
fields are present.  Parsing is NOT per-field independent: fields are
assigned left to right and the first failure (a non-numeric non-empty field
— including `[N/A]` anywhere but the fan position — or a missing field
among the first six) aborts the loop, so that field and all later ones are
simply absent from the result while earlier fields keep their values. -/
theorem parse_gpu_metrics_amended :
    (∀ output, 6 ≤ (partsOf output).length →
      (∀ i, (hi : i < (partsOf output).length) → i ≠ 6 →
        (partsOf output)[i] = "" ∨ (pyFloat (partsOf output)[i]).isSome) →
      (∀ s, (partsOf output)[6]? = some s → s = "" ∨ s = "[N/A]" ∨ (pyFloat s).isSome) →
      parse_gpu_metrics output =
        ⟨some (fieldOut (partsOf output) 0 0), some (fieldOut (partsOf output) 1 0),
         some (fieldOut (partsOf output) 2 1), some (pyInt (fieldOut (partsOf output) 3 0)),
         some (fieldOut (partsOf output) 4 0), some (fieldOut (partsOf output) 5 1),
         some (fanOut (partsOf output)), some (clockOut (partsOf output) 7),
         some (clockOut (partsOf output) 8)⟩) ∧
    (∀ (ps : List String) (i : Nat) (d : Rat), ps[i]? = some "" → fieldOut ps i d = d) ∧
    (∀ ps : List String,
      ps[6]? = none ∨ ps[6]? = some "" ∨ ps[6]? = some "[N/A]" → fanOut ps = none) ∧
    (∀ (ps : List String) (i : Nat), ps[i]? = none ∨ ps[i]? = some "" → clockOut ps i = 0) ∧
    (∀ (output s : String) (rest : List String), partsOf output = s :: rest →
      s ≠ "" → pyFloat s = none → parse_gpu_metrics output = emptyMetrics) ∧
    parse_gpu_metrics "85, 2048, [N/A], 70, 150, 200" =
      { emptyMetrics with utilization := some 85, mem_used := some 2048 } := by
  refine ⟨?_, ?_, ?_, ?_, ?_, by decide⟩
  · intro output hlen hgood hfan
    rw [parse_gpu_metrics]
    exact parseFields_good _ hlen hgood hfan
  · intro ps i d h
    rw [fieldOut, h]
    simp
  · intro ps h
    rcases h with h | h | h <;> simp [fanOut, h]
  · intro ps i h
    rcases h with h | h <;> simp [clockOut, h]
  · intro output s rest hps hne hbad
    rw [parse_gpu_metrics, hps, parseFields,
      show fieldVal (s :: rest) 0 0 = .error () by simp [fieldVal, hne, hbad]]

/-- C3 (witness): a 7-field line with empty fields in counter, total and
power positions and `[N/A]` for the fan resolves with all fallbacks. -/
theorem parse_gpu_metrics_amended_witness :
    6 ≤ (partsOf "85, , 8192, , 20, , [N/A]").length ∧
    parse_gpu_metrics "85, , 8192, , 20, , [N/A]" =
      ⟨some (fieldOut (partsOf "85, , 8192, , 20, , [N/A]") 0 0),
       some (fieldOut (partsOf "85, , 8192, , 20, , [N/A]") 1 0),
       some (fieldOut (partsOf "85, , 8192, , 20, , [N/A]") 2 1),
       some (pyInt (fieldOut (partsOf "85, , 8192, , 20, , [N/A]") 3 0)),
       some (fieldOut (partsOf "85, , 8192, , 20, , [N/A]") 4 0),
       some (fieldOut (partsOf "85, , 8192, , 20, , [N/A]") 5 1),
       some (fanOut (partsOf "85, , 8192, , 20, , [N/A]")),
       some (clockOut (partsOf "85, , 8192, , 20, , [N/A]") 7),
       some (clockOut (partsOf "85, , 8192, , 20, , [N/A]") 8)⟩ :=
  ⟨by decide,
   parse_gpu_metrics_amended.1 "85, , 8192, , 20, , [N/A]" (by decide) (by decide)
     (by
       intro s hs
       have he : s = "[N/A]" := by
         have h : some "[N/A]" = some s := hs
         injection h with h
         exact h.symm
       subst he
       right
       left
       rfl)⟩

/-! ## Claim C1: HistoryStore FIFO invariant -/

/-- Folding `deque.append` from any under-capacity state keeps the suffix of
everything ever appended. -/
theorem foldl_dq_append (cap : Nat) :
    ∀ (l acc : List α), acc.length ≤ cap →
      l.foldl (dq_append cap) acc = (acc ++ l).drop (acc.length + l.length - cap)
  | [], acc, hacc => by
    simp [Nat.sub_eq_zero_of_le hacc]
  | x :: xs, acc, hacc => by
    rw [List.foldl_cons]
    have hlen : (dq_append cap acc x).length ≤ cap := by
      simp only [dq_append, List.length_drop, List.length_append, List.length_cons,
        List.length_nil]
      omega
    rw [foldl_dq_append cap xs (dq_append cap acc x) hlen, dq_append]
    have hk : acc.length + 1 - cap ≤ (acc ++ [x]).length := by
      simp only [List.length_append, List.length_cons, List.length_nil]
      omega
    rw [← List.drop_append_of_le_length hk, List.drop_drop, List.length_drop]
    rw [List.append_assoc]
    simp only [List.singleton_append, List.length_append, List.length_cons, List.length_nil]
    congr 1
    omega

/-- Generic form: any one of the five series after a whole run of appends
is the capacity-suffix of everything appended to it. -/
theorem history_series (f : Sample → α) (g : HistoryData → List α)
    (hg : ∀ h s, g (history_append h s) = dq_append HISTORY_SIZE (g h) (f s))
    (hge : g emptyHistory = []) (samples : List Sample) :
    g (history_of samples) =
      (samples.map f).drop (samples.length - HISTORY_SIZE) := by
  have h : ∀ (l : List Sample) (h0 : HistoryData),
      g (l.foldl history_append h0) = (l.map f).foldl (dq_append HISTORY_SIZE) (g h0) := by
    intro l
    induction l with
    | nil => intro h0; rfl
    | cons x xs ih =>
      intro h0
      rw [List.foldl_cons, ih, List.map_cons, List.foldl_cons, hg]
  rw [history_of, h, hge, foldl_dq_append HISTORY_SIZE (samples.map f) [] (by simp)]
  simp

theorem history_of_time (samples : List Sample) :
    (history_of samples).time =
      (samples.map Sample.time).drop (samples.length - HISTORY_SIZE) :=
  history_series Sample.time HistoryData.time (fun _ _ => rfl) rfl samples

theorem history_of_utilization (samples : List Sample) :
    (history_of samples).utilization =
      (samples.map Sample.utilization).drop (samples.length - HISTORY_SIZE) :=
  history_series Sample.utilization HistoryData.utilization (fun _ _ => rfl) rfl samples

theorem history_of_temperature (samples : List Sample) :
    (history_of samples).temperature =
      (samples.map Sample.temperature).drop (samples.length - HISTORY_SIZE) :=
  history_series Sample.temperature HistoryData.temperature (fun _ _ => rfl) rfl samples

theorem history_of_power (samples : List Sample) :
    (history_of samples).power =
      (samples.map Sample.power).drop (samples.length - HISTORY_SIZE) :=
  history_series Sample.power HistoryData.power (fun _ _ => rfl) rfl samples

theorem history_of_memory (samples : List Sample) :
    (history_of samples).memory =
      (samples.map Sample.memory).drop (samples.length - HISTORY_SIZE) :=
  history_series Sample.memory HistoryData.memory (fun _ _ => rfl) rfl samples

/-- C1: after any sequence of `M` appends (one per `update_gui` cycle) into
the five `deque(maxlen=300)` buffers of `history_data`, every series has
length exactly `min M 300`; and when `M > 300`, entry `i` of every series
is the corresponding component of the sample produced by append number
`M - 300 + i` (0-indexed) — in particular the oldest retained entry
(`i = 0`) comes from the `(M-300)`-th append, and all five entries at
position `i` come from the same append (FIFO eviction, synchronized). -/
theorem history_fifo (samples : List Sample) :
    ((history_of samples).time.length = min samples.length HISTORY_SIZE ∧
     (history_of samples).utilization.length = min samples.length HISTORY_SIZE ∧
     (history_of samples).temperature.length = min samples.length HISTORY_SIZE ∧
     (history_of samples).power.length = min samples.length HISTORY_SIZE ∧
     (history_of samples).memory.length = min samples.length HISTORY_SIZE) ∧
    (HISTORY_SIZE < samples.length →
      ∀ i : Nat,
        (history_of samples).time[i]? =
          (samples[samples.length - HISTORY_SIZE + i]?).map Sample.time ∧
        (history_of samples).utilization[i]? =
          (samples[samples.length - HISTORY_SIZE + i]?).map Sample.utilization ∧
        (history_of samples).temperature[i]? =
          (samples[samples.length - HISTORY_SIZE + i]?).map Sample.temperature ∧
        (history_of samples).power[i]? =
          (samples[samples.length - HISTORY_SIZE + i]?).map Sample.power ∧
        (history_of samples).memory[i]? =
          (samples[samples.length - HISTORY_SIZE + i]?).map Sample.memory) := by
  constructor
  · refine ⟨?_, ?_, ?_, ?_, ?_⟩
    · rw [history_of_time]
      simp only [List.length_drop, List.length_map]
      omega
    · rw [history_of_utilization]
      simp only [List.length_drop, List.length_map]
      omega
    · rw [history_of_temperature]
      simp only [List.length_drop, List.length_map]
      omega
    · rw [history_of_power]
      simp only [List.length_drop, List.length_map]
      omega
    · rw [history_of_memory]
      simp only [List.length_drop, List.length_map]
      omega
  · intro _ i
    refine ⟨?_, ?_, ?_, ?_, ?_⟩
    · rw [history_of_time, List.getElem?_drop, List.getElem?_map]
    · rw [history_of_utilization, List.getElem?_drop, List.getElem?_map]
    · rw [history_of_temperature, List.getElem?_drop, List.getElem?_map]
    · rw [history_of_power, List.getElem?_drop, List.getElem?_map]
    · rw [history_of_memory, List.getElem?_drop, List.getElem?_map]

/-- C1 (witness): with 301 appends the buffers hold 300 entries and the
oldest retained entry is the one from append number 1. -/
theorem history_fifo_witness :
    HISTORY_SIZE < witnessSamples.length ∧
    (history_of witnessSamples).time.length = min witnessSamples.length HISTORY_SIZE ∧
    (history_of witnessSamples).utilization[0]? =
      (witnessSamples[witnessSamples.length - HISTORY_SIZE + 0]?).map Sample.utilization :=
  ⟨by simp only [witnessSamples, List.length_map, List.length_range, HISTORY_SIZE]; omega,
   (history_fifo witnessSamples).1.1,
   ((history_fifo witnessSamples).2
     (by simp only [witnessSamples, List.length_map, List.length_range, HISTORY_SIZE]; omega) 0).2.1⟩

/-! ## Claim C2: AlertEngine debounce -/

/-- C2 (counterexample): the claim says the first-ever trigger always fires
(last-fired defaults to the epoch) and that firing needs only "at least 300
seconds elapsed"; so with `alert_temp = 80`, `temperature = 85`, empty
alert state, evaluating at `t = 0` should fire.  The code tests
`current_time - last_alert_time.get('temp', 0) > 300` strictly: at `t = 0`
the difference is 0, nothing fires and the state stays empty. -/
theorem check_alerts_claim_false_at_t0 :
    (check_alerts tempMetrics85 alertCfg80 0 ⟨none, none⟩).1 = [] ∧
    (check_alerts tempMetrics85 alertCfg80 0 ⟨none, none⟩).2 = ⟨none, none⟩ := by
  decide

/-- C2 (amended): with alerts enabled, a kind fires iff its metric meets or
exceeds its threshold AND strictly more than 300 seconds have elapsed since
that kind last fired (per-kind, defaulting to 0, so the first-ever trigger
fires only once `now > 300`); firing sets that kind's last-fired time to
`now`, leaving the other kind's untouched.  Consequently, in the claim's
scenario shifted past the debounce window: at t=400 the temperature alert
fires, at t=500 (still 85 °C) nothing fires, and at t=701 it fires again. -/
theorem check_alerts_amended :
    (∀ (m : GpuMetrics) (cfg : AlertConfig) (now : Rat) (st : AlertState),
      cfg.alert_enabled = true →
      (check_alerts m cfg now st).1 =
        (if cfg.alert_temp ≤ m.temperature.getD 0 ∧ 300 < now - st.temp.getD 0
         then [tempAlertEvent (m.temperature.getD 0) cfg.alert_temp] else []) ++
        (if cfg.alert_util ≤ m.utilization.getD 0 ∧ 300 < now - st.util.getD 0
         then [utilAlertEvent (m.utilization.getD 0) cfg.alert_util] else []) ∧
      (check_alerts m cfg now st).2.temp =
        (if cfg.alert_temp ≤ m.temperature.getD 0 ∧ 300 < now - st.temp.getD 0
         then some now else st.temp) ∧
      (check_alerts m cfg now st).2.util =
        (if cfg.alert_util ≤ m.utilization.getD 0 ∧ 300 < now - st.util.getD 0
         then some now else st.util)) ∧
    (check_alerts tempMetrics85 alertCfg80 400 ⟨none, none⟩).1 = [tempAlertEvent 85 80] ∧
    (check_alerts tempMetrics85 alertCfg80 400 ⟨none, none⟩).2 = ⟨some 400, none⟩ ∧
    (check_alerts tempMetrics85 alertCfg80 500 ⟨some 400, none⟩).1 = [] ∧
    (check_alerts tempMetrics85 alertCfg80 701 ⟨some 400, none⟩).1 = [tempAlertEvent 85 80] := by
  refine ⟨?_, by decide, by decide, by decide, by decide⟩
  intro m cfg now st hen
  rw [check_alerts]
  simp only [hen, not_true, if_false, qSub_eq]
  split_ifs <;> simp_all

/-- C2 (witness): the amended characterization applied at t=400 with a
never-fired state. -/
theorem check_alerts_amended_witness :
    alertCfg80.alert_enabled = true ∧
    (check_alerts tempMetrics85 alertCfg80 400 ⟨none, none⟩).1 =
      (if alertCfg80.alert_temp ≤ tempMetrics85.temperature.getD 0 ∧
          300 < (400 : Rat) - (AlertState.mk none none).temp.getD 0
       then [tempAlertEvent (tempMetrics85.temperature.getD 0) alertCfg80.alert_temp] else []) ++
      (if alertCfg80.alert_util ≤ tempMetrics85.utilization.getD 0 ∧
          300 < (400 : Rat) - (AlertState.mk none none).util.getD 0
       then [utilAlertEvent (tempMetrics85.utilization.getD 0) alertCfg80.alert_util] else []) :=
  ⟨rfl, (check_alerts_amended.1 tempMetrics85 alertCfg80 400 ⟨none, none⟩ rfl).1⟩

/-! ## Claim C6: retry policy of the fetch step -/

/-- C6: `run_with_retry` with the source defaults `retries=3, delay=1`
wrapped around the fetch closure: a successful attempt returns that
attempt's result immediately (one 1-second sleep between consecutive
attempts, none after the last); after three failures the last exception
propagates and `get_nvidia_smi_output` surfaces it as an error string — the
distinct persistent message for a missing binary (`FileNotFoundError`),
`"Error: {e}"` otherwise — rather than raising, so the polling loop
continues.  Parsing is outside the retried closure by construction
(`parse_gpu_metrics` is applied downstream by the GUI tick, never here). -/
theorem run_with_retry_spec :
    (∀ (f : Nat → Except ToolError (String × String)) r,
      f 0 = .ok r → run_with_retry f 3 1 = ⟨some (.ok r), 1, 0⟩) ∧
    (∀ (f : Nat → Except ToolError (String × String)) r e0,
      f 0 = .error e0 → f 1 = .ok r → run_with_retry f 3 1 = ⟨some (.ok r), 2, 1⟩) ∧
    (∀ (f : Nat → Except ToolError (String × String)) r e0 e1,
      f 0 = .error e0 → f 1 = .error e1 → f 2 = .ok r →
      run_with_retry f 3 1 = ⟨some (.ok r), 3, 2⟩) ∧
    (∀ (f : Nat → Except ToolError (String × String)) e0 e1 e2,
      f 0 = .error e0 → f 1 = .error e1 → f 2 = .error e2 →
      run_with_retry f 3 1 = ⟨some (.error e2), 3, 2⟩) ∧
    (∀ f : Nat → Except ToolError (String × String),
      (run_with_retry f 3 1).attempts ≤ 3 ∧
      (run_with_retry f 3 1).slept = (run_with_retry f 3 1).attempts - 1) ∧
    (∀ (fetch : Nat → Except ToolError (String × String)) r,
      (run_with_retry fetch 3 1).result = some (.ok r) →
      get_nvidia_smi_output fetch = r) ∧
    (∀ fetch : Nat → Except ToolError (String × String),
      (run_with_retry fetch 3 1).result = some (.error .fileNotFound) →
      get_nvidia_smi_output fetch =
        ("Error: nvidia-smi not found. Ensure drivers are installed.", "")) ∧
    (∀ (fetch : Nat → Except ToolError (String × String)) msg,
      (run_with_retry fetch 3 1).result = some (.error (.other msg)) →
      get_nvidia_smi_output fetch = ("Error: " ++ msg, "")) := by
  refine ⟨?_, ?_, ?_, ?_, ?_, ?_, ?_, ?_⟩
  · intro f r h0
    simp [run_with_retry, retryFrom, h0]
  · intro f r e0 h0 h1
    simp [run_with_retry, retryFrom, h0, h1]
  · intro f r e0 e1 h0 h1 h2
    simp [run_with_retry, retryFrom, h0, h1, h2]
  · intro f e0 e1 e2 h0 h1 h2
    simp [run_with_retry, retryFrom, h0, h1, h2]
  · intro f
    cases h0 : f 0 with
    | ok r => simp [run_with_retry, retryFrom, h0]
    | error e0 =>
      cases h1 : f 1 with
      | ok r => simp [run_with_retry, retryFrom, h0, h1]
      | error e1 =>
        cases h2 : f 2 with
        | ok r => simp [run_with_retry, retryFrom, h0, h1, h2]
        | error e2 => simp [run_with_retry, retryFrom, h0, h1, h2]
  · intro fetch r h
    rw [get_nvidia_smi_output, h]
  · intro fetch h
    rw [get_nvidia_smi_output, h]
  · intro fetch msg h
    rw [get_nvidia_smi_output, h]

/-- C6 (witness): the flaky operation is retried once (one 1-second sleep)
and its second attempt's result is returned with no further attempts. -/
theorem run_with_retry_spec_witness :
    flakyFetch 0 = .error (.other "boom") ∧
    flakyFetch 1 = .ok ("85, 0, 1, 40, 10, 100", "") ∧
    run_with_retry flakyFetch 3 1 = ⟨some (.ok ("85, 0, 1, 40, 10, 100", "")), 2, 1⟩ :=
  ⟨rfl, rfl,
   run_with_retry_spec.2.1 flakyFetch ("85, 0, 1, 40, 10, 100", "") (.other "boom") rfl rfl⟩

/-! ## Claim C7: `apply_limit` bounds validation -/

/-- C7: with both cached bounds known, an out-of-range value is rejected
without invoking `nvidia-smi -pl` and with the cached limits untouched; an
in-range value invokes the command (with argument `int(val)`); a successful
write pops the cached `power_limits` entry while a failed write
(`CalledProcessError`) returns `(False, raw error text)` and leaves the
cache unchanged; in particular with bounds (100, 300), value 50 is rejected
without invocation and value 250 is applied by invoking the command. -/
theorem apply_limit_spec :
    (∀ (mn mx val : Rat) (outcome : CmdOutcome) (cache : Option PTriple),
      val < mn ∨ mx < val →
      apply_limit (some mn) (some mx) val outcome cache =
        (.invalidRange mn mx, cache, none)) ∧
    (∀ (mn mx val : Rat) (out : String) (cache : Option PTriple),
      mn ≤ val → val ≤ mx →
      apply_limit (some mn) (some mx) val (.ok out) cache =
        (.applied true out, none, some (pyInt val))) ∧
    (∀ (mn mx val : Rat) (err : String) (cache : Option PTriple),
      mn ≤ val → val ≤ mx →
      apply_limit (some mn) (some mx) val (.calledProcessError err) cache =
        (.applied false err, cache, some (pyInt val))) ∧
    (∀ (mn mx val : Rat) (msg : String) (cache : Option PTriple),
      mn ≤ val → val ≤ mx →
      apply_limit (some mn) (some mx) val (.otherError msg) cache =
        (.applied false msg, cache, some (pyInt val))) ∧
    apply_limit (some 100) (some 300) 50 (.ok "unused") (some (some 200, some 100, some 300)) =
      (.invalidRange 100 300, some (some 200, some 100, some 300), none) ∧
    apply_limit (some 100) (some 300) 250 (.ok "power limit set")
        (some (some 200, some 100, some 300)) =
      (.applied true "power limit set", none, some 250) := by
  refine ⟨?_, ?_, ?_, ?_, by decide, by decide⟩
  · intro mn mx val outcome cache h
    rcases h with h | h <;> simp [apply_limit, out_of_bounds, h]
  · intro mn mx val out cache h1 h2
    simp [apply_limit, out_of_bounds, set_power_limit, not_lt.mpr h1, not_lt.mpr h2]
  · intro mn mx val err cache h1 h2
    simp [apply_limit, out_of_bounds, set_power_limit, not_lt.mpr h1, not_lt.mpr h2]
  · intro mn mx val msg cache h1 h2
    simp [apply_limit, out_of_bounds, set_power_limit, not_lt.mpr h1, not_lt.mpr h2]

/-- C7 (witness): the in-range acceptance rule applied at value 250 with
cached bounds (100, 300). -/
theorem apply_limit_spec_witness :
    (100 : Rat) ≤ 250 ∧ (250 : Rat) ≤ 300 ∧
    apply_limit (some 100) (some 300) 250 (.ok "power limit set")
        (some (some 200, some 100, some 300)) =
      (.applied true "power limit set", none, some (pyInt 250)) :=
  ⟨by decide, by decide,
   apply_limit_spec.2.1 100 300 250 "power limit set"
     (some (some 200, some 100, some 300)) (by decide) (by decide)⟩

/-! ## Claim C8: export round trip -/

theorem mapM_option_of_all_some {α β : Type} (l : List α) (f : α → Option β) (g : α → β)
    (h : ∀ a ∈ l, f a = some (g a)) : l.mapM f = some (l.map g) := by
  induction l with
  | nil => rfl
  | cons a as ih =>
    rw [List.mapM_cons, h a (by simp), ih (fun b hb => h b (by simp [hb]))]
    rfl

theorem rowAt_eq (h : HistoryData) (i : Nat)
    (hu : h.utilization.length = h.time.length)
    (hc : h.temperature.length = h.time.length)
    (hp : h.power.length = h.time.length)
    (hm : h.memory.length = h.time.length)
    (hi : i < h.time.length) :
    rowAt h i = some ⟨h.time.getD i "", h.utilization.getD i 0, h.temperature.getD i 0,
      h.power.getD i 0, h.memory.getD i 0⟩ := by
  have b1 : i < h.time.length := hi
  have b2 : i < h.utilization.length := by omega
  have b3 : i < h.temperature.length := by omega
  have b4 : i < h.power.length := by omega
  have b5 : i < h.memory.length := by omega
  simp [rowAt, List.getElem?_eq_getElem b1, List.getElem?_eq_getElem b2,
    List.getElem?_eq_getElem b3, List.getElem?_eq_getElem b4, List.getElem?_eq_getElem b5,
    List.getD_eq_getElem]

/-- C8: for any history whose five series have equal length (the C1
invariant), `export_to_csv` writes exactly the header
`Timestamp, Utilization (%), Temperature (C), Power (W), Memory (%)`
followed by one row per retained sample in order, and `export_to_json`
writes the export timestamp, the cached GPU name (default `"Unknown"`) and
the same records; reading the 3-sample history's files back reproduces the
three (timestamp, utilization, temperature, power, memory) tuples in
original order. -/
theorem export_round_trip :
    (∀ h : HistoryData,
      h.utilization.length = h.time.length →
      h.temperature.length = h.time.length →
      h.power.length = h.time.length →
      h.memory.length = h.time.length →
      export_to_csv h = some ⟨csvHeader, historyRows h⟩ ∧
      (∀ (now_iso : String) (name_cache : Option String),
        export_to_json now_iso name_cache h =
          some ⟨now_iso, name_cache.getD "Unknown", historyRows h⟩)) ∧
    (∀ h : HistoryData, (historyRows h).length = h.time.length) ∧
    csvHeader = ["Timestamp", "Utilization (%)", "Temperature (C)", "Power (W)", "Memory (%)"] ∧
    (export_to_csv (history_of threeSamples)).map readBackCsv =
      some [⟨"10:00:01", 10, 40, 50, 25⟩, ⟨"10:00:03", 20, 45, 60, 30⟩,
            ⟨"10:00:05", 30, 50, 70, 35⟩] ∧
    (export_to_json "2026-10-12T00:00:00" (some "GeForce RTX") (history_of threeSamples)).map
        readBackJson =
      some [⟨"10:00:01", 10, 40, 50, 25⟩, ⟨"10:00:03", 20, 45, 60, 30⟩,
            ⟨"10:00:05", 30, 50, 70, 35⟩] := by
  refine ⟨?_, ?_, rfl, by decide, by decide⟩
  · intro h hu hc hp hm
    have hrows : (List.range h.time.length).mapM (rowAt h) = some (historyRows h) := by
      rw [historyRows]
      exact mapM_option_of_all_some _ _ _
        (fun i hi => rowAt_eq h i hu hc hp hm (List.mem_range.mp hi))
    constructor
    · rw [export_to_csv, hrows]
      rfl
    · intro now_iso name_cache
      rw [export_to_json, hrows]
      rfl
  · intro h
    simp [historyRows]

/-- C8 (witness): the structural export equations applied to the concrete
3-sample history. -/
theorem export_round_trip_witness :
    (history_of threeSamples).utilization.length = (history_of threeSamples).time.length ∧
    export_to_csv (history_of threeSamples) =
      some ⟨csvHeader, historyRows (history_of threeSamples)⟩ :=
  ⟨by decide,
   ((export_round_trip.1 (history_of threeSamples) (by decide) (by decide) (by decide)
      (by decide)).1)⟩

/-! ## Claim C9: mailbox publish atomicity -/

/-- C9 (counterexample): the worker publishes with three separate dict
stores, not one atomic replacement.  Starting from a fully published cycle
A = ("gA", "pA", 1), after the first store of cycle B = ("gB", "pB", 2) a
concurrent reader observes ("gB", "pA", 1): gpu_output from the new cycle
with proc_output and timestamp from the previous one — neither the entire
previous observation nor the entire new one. -/
theorem mailbox_claim_false_torn_read :
    mailboxAfter ⟨"gA", "pA", 1⟩ ⟨"gB", "pB", 2⟩ ⟨"", "", 0⟩ 1 = ⟨"gB", "pA", 1⟩ ∧
    mailboxAfter ⟨"gA", "pA", 1⟩ ⟨"gB", "pB", 2⟩ ⟨"", "", 0⟩ 1 ≠
      publishAll ⟨"gA", "pA", 1⟩ ⟨"", "", 0⟩ ∧
    mailboxAfter ⟨"gA", "pA", 1⟩ ⟨"gB", "pB", 2⟩ ⟨"", "", 0⟩ 1 ≠
      publishAll ⟨"gB", "pB", 2⟩ (publishAll ⟨"gA", "pA", 1⟩ ⟨"", "", 0⟩) := by
  decide

/-- C9 (amended): each poll result is published by three separate per-key
stores in source order (`gpu_output`, `proc_output`, `timestamp`); each
individual store atomically replaces that one key and touches no other, so
a reader interleaving after `k` stores of the new cycle sees exactly the
first `k` fields from the new cycle and the rest from the previous one:
the triple is consistent only when `k = 0` (entirely the old observation)
or `k = 3` (entirely the new one), and torn for `k = 1, 2`. -/
theorem mailbox_publish_amended :
    (∀ (a b : CycleData) (m0 : Mailbox) (k : Nat), k ≤ 3 →
      mailboxAfter a b m0 k =
        ⟨if 1 ≤ k then b.gpu_output else a.gpu_output,
         if 2 ≤ k then b.proc_output else a.proc_output,
         if 3 ≤ k then b.timestamp else a.timestamp⟩) ∧
    (∀ (a b : CycleData) (m0 : Mailbox), mailboxAfter a b m0 0 = publishAll a m0) ∧
    (∀ (a b : CycleData) (m0 : Mailbox),
      mailboxAfter a b m0 3 = publishAll b (publishAll a m0)) ∧
    (∀ (c : CycleData) (m : Mailbox),
      (applyW c .wGpu m).gpu_output = c.gpu_output ∧
      (applyW c .wGpu m).proc_output = m.proc_output ∧
      (applyW c .wGpu m).timestamp = m.timestamp) ∧
    (∀ (c : CycleData) (m : Mailbox),
      (applyW c .wProc m).proc_output = c.proc_output ∧
      (applyW c .wProc m).gpu_output = m.gpu_output ∧
      (applyW c .wProc m).timestamp = m.timestamp) ∧
    (∀ (c : CycleData) (m : Mailbox),
      (applyW c .wTs m).timestamp = c.timestamp ∧
      (applyW c .wTs m).gpu_output = m.gpu_output ∧
      (applyW c .wTs m).proc_output = m.proc_output) := by
  refine ⟨?_, fun a b m0 => rfl, fun a b m0 => rfl,
    fun c m => ⟨rfl, rfl, rfl⟩, fun c m => ⟨rfl, rfl, rfl⟩, fun c m => ⟨rfl, rfl, rfl⟩⟩
  intro a b m0 k hk
  interval_cases k <;> simp [mailboxAfter, publishAll, publishSteps, applyW]

/-- C9 (witness): the interleaving formula at `k = 1` for two concrete
cycles. -/
theorem mailbox_publish_amended_witness :
    (1 : Nat) ≤ 3 ∧
    mailboxAfter ⟨"gA", "pA", 1⟩ ⟨"gB", "pB", 2⟩ ⟨"", "", 0⟩ 1 =
      ⟨if 1 ≤ 1 then (CycleData.mk "gB" "pB" 2).gpu_output
        else (CycleData.mk "gA" "pA" 1).gpu_output,
       if 2 ≤ 1 then (CycleData.mk "gB" "pB" 2).proc_output
        else (CycleData.mk "gA" "pA" 1).proc_output,
       if 3 ≤ 1 then (CycleData.mk "gB" "pB" 2).timestamp
        else (CycleData.mk "gA" "pA" 1).timestamp⟩ :=
  ⟨by decide,
   mailbox_publish_amended.1 ⟨"gA", "pA", 1⟩ ⟨"gB", "pB", 2⟩ ⟨"", "", 0⟩ 1 (by decide)⟩

/-! ## Claim C10: `power_limits` cache lifecycle -/

/-- C10: while `'power_limits' in static_cache`, every `get_power_limits`
call returns the cached triple without invoking the external tool —
including a cached `(None, None, None)` from an output with no labeled
line; a fetch that completes without raising stores its triple in the
cache; a fetch that raises returns `(None, None, None)` without caching;
and the only removal of the entry is `static_cache.pop('power_limits')` on
the success path of `set_power_limit` — a failed write leaves the cache
unchanged. -/
theorem get_power_limits_cache :
    (∀ (raw : Nat → Except Unit String) (t : PTriple),
      get_power_limits raw (some t) = (t, some t, false)) ∧
    (∀ (raw : Nat → Except Unit String) (t : PTriple),
      (run_with_retry (fun i => (raw i).bind scanPowerText) 3 1).result = some (.ok t) →
      get_power_limits raw none = (t, some t, true)) ∧
    (∀ (raw : Nat → Except Unit String) (e : Unit),
      (run_with_retry (fun i => (raw i).bind scanPowerText) 3 1).result = some (.error e) →
      get_power_limits raw none = ((none, none, none), none, true)) ∧
    (∀ (out : String) (cache : Option PTriple),
      set_power_limit (.ok out) cache = ((true, out), none)) ∧
    (∀ (err : String) (cache : Option PTriple),
      set_power_limit (.calledProcessError err) cache = ((false, err), cache)) ∧
    (∀ (msg : String) (cache : Option PTriple),
      set_power_limit (.otherError msg) cache = ((false, msg), cache)) ∧
    scanPowerText "no labeled lines\nhere" = .ok (none, none, none) ∧
    scanPowerText powerText = .ok (some 200, some 100, some 300) ∧
    get_power_limits (fun _ => .ok "no labeled lines\nhere") none =
      ((none, none, none), some (none, none, none), true) := by
  refine ⟨fun raw t => rfl, ?_, ?_, fun out cache => rfl, fun err cache => rfl,
    fun msg cache => rfl, by decide, by decide, by decide⟩
  · intro raw t h
    rw [get_power_limits, h]
  · intro raw e h
    rw [get_power_limits, h]

/-- C10 (witness): a fetch returning the labeled text caches and returns
`(200, 100, 300)`. -/
theorem get_power_limits_cache_witness :
    (run_with_retry (fun i => ((fun (_ : Nat) => Except.ok powerText) i).bind scanPowerText)
        3 1).result = some (.ok (some 200, some 100, some 300)) ∧
    get_power_limits (fun _ => .ok powerText) none =
      ((some 200, some 100, some 300), some (some 200, some 100, some 300), true) :=
  ⟨by decide,
   get_power_limits_cache.2.1 (fun _ => .ok powerText) (some 200, some 100, some 300)
     (by decide)⟩
